import Mathlib

/-!
Verification of claims about the claude-code-product-os repository.

The file shallowly embeds the Python sources:
  * `sync-granola.py` (Granola transcript sync tool),
  * `app/services/langflow_service.py` and `app/api/v1/flows.py`
    (LangFlow AI template service and API layer),
  * `app/core/config.py` (Pydantic settings assembly).
External effects (the filesystem, the Granola and LangFlow HTTP APIs, the
vector store, `datetime` parsing) are passed in as explicit parameters, so
every definition is an executable Lean function mirroring the Python code.
-/

namespace Granola

/-- Python substring test `pat in s`, over the characters of the strings. -/
def containsSub (s pat : String) : Bool :=
  (List.range (s.data.length + 1)).any (fun i => pat.data.isPrefixOf (s.data.drop i))

/-- Python `str.strip()` for the whitespace characters that occur in this
program (space, tab, newline, carriage return): drop whitespace from both
ends of the string. -/
def pyStrip (s : String) : String :=
  ⟨((s.data.dropWhile Char.isWhitespace).reverse.dropWhile Char.isWhitespace).reverse⟩

mutual
/-- A ProseMirror JSON node as consumed by `prosemirror_to_text`:
a JSON object with optional `type`, `text` and `content` keys, a JSON
array, or any other JSON value (which the walker ignores). -/
inductive PMNode where
  | obj (ty : Option String) (txt : Option String) (children : Option PMForest)
  | arr (items : PMForest)
  | other
/-- A JSON list of ProseMirror nodes (a `content` value or an array node). -/
inductive PMForest where
  | nil
  | cons (n : PMNode) (ns : PMForest)
end

/-- Builds a `PMForest` from a Lean list of nodes. -/
def PMForest.ofList : List PMNode → PMForest
  | [] => .nil
  | n :: ns => .cons n (PMForest.ofList ns)

mutual
/-- The inner `extract_text` walker of `prosemirror_to_text`: emits the text
of `text` nodes, recurses into `content` lists and into array nodes, and
emits a double newline after a `paragraph` or `heading` node. Returned as
the list of appended parts, in order. -/
def extract_text : PMNode → List String
  | .obj ty txt children =>
      (if ty = some "text" then [txt.getD ""] else [])
      ++ (match children with
          | some cs => extract_forest cs
          | none => [])
      ++ (if ty = some "paragraph" ∨ ty = some "heading" then ["\n\n"] else [])
  | .arr items => extract_forest items
  | .other => []
/-- `extract_text` applied to each node of a list, in order. -/
def extract_forest : PMForest → List String
  | .nil => []
  | .cons n ns => extract_text n ++ extract_forest ns
end

/-- `prosemirror_to_text`: returns `""` unless the document is an object
with a `content` key; otherwise joins the parts collected by
`extract_text` and strips surrounding whitespace. -/
def prosemirror_to_text (doc : Option PMNode) : String :=
  match doc with
  | some (.obj ty txt (some cs)) => pyStrip (String.join (extract_text (.obj ty txt (some cs))))
  | _ => ""

/-- The character class kept by the title cleaner in `save_document`:
alphanumeric, space, hyphen or underscore. -/
def keepChar (c : Char) : Bool :=
  c.isAlphanum || c = ' ' || c = '-' || c = '_'

/-- The `safe_title` computation of `save_document`: each character outside
the kept class is replaced by `'-'`, then spaces are replaced by `'-'`,
then the result is truncated to 50 characters. -/
def safe_title (title : String) : String :=
  let cleaned := title.data.map (fun c => if keepChar c then c else '-')
  ⟨(cleaned.map (fun c => if c = ' ' then '-' else c)).take 50⟩

/-- Modelled from the spec: the sanitization as the claim words it, with
disallowed characters *stripped* rather than replaced by hyphens. -/
def safe_title_stripped (title : String) : String :=
  let cleaned := title.data.filter keepChar
  ⟨(cleaned.map (fun c => if c = ' ' then '-' else c)).take 50⟩

/-- A Granola document as consumed by `save_document` and `sync`: the
fields are optional, mirroring `doc.get(...)` with its defaults. -/
structure GDoc where
  id : Option String
  title : Option String
  created_at : Option String
  transcriptionDoc : Option PMNode
  content : Option PMNode

/-- The transcripts directory, as a list of (file name, file content)
pairs; `save_document` globs and appends to it. -/
abbrev Dir := List (String × String)

/-- The duplicate test of `save_document` on one line of an existing file:
the line contains `**Document ID:** {doc_id}` or `<!-- doc-id: {doc_id} -->`
as a substring. -/
def markerHit (doc_id line : String) : Bool :=
  containsSub line ("**Document ID:** " ++ doc_id)
    || containsSub line ("<!-- doc-id: " ++ doc_id ++ " -->")

/-- Suffix test on strings, over their character lists (the `*.md` glob). -/
def strEndsWith (s suffix : String) : Bool :=
  suffix.data.isSuffixOf s.data

/-- Splits a character list at newline characters. -/
def splitOnNl : List Char → List (List Char)
  | [] => [[]]
  | c :: cs =>
      let rest := splitOnNl cs
      if c = '\n' then [] :: rest
      else
        match rest with
        | [] => [[c]]
        | l :: ls => (c :: l) :: ls

/-- The lines of a file that the duplicate scan inspects: indices 0..10,
i.e. the first 11 lines. -/
def first11 (content : String) : List String :=
  ((splitOnNl content.data).map (fun l => ⟨l⟩)).take 11

/-- The glob-and-skip filter of the duplicate scan: `*.md` files other
than `.gitkeep`. -/
def globMd (dir : Dir) : Dir :=
  dir.filter (fun p => strEndsWith p.1 ".md" && p.1 != ".gitkeep")

/-- The duplicate scan of `save_document`: the first `*.md` file (skipping
`.gitkeep`) whose first 11 lines contain the document-id marker, if any. -/
def alreadySaved (dir : Dir) (doc_id : String) : Option String :=
  ((globMd dir).find?
    (fun p => (first11 p.2).any (markerHit doc_id))).map (fun p => p.1)

/-- Candidate file names tried by the collision loop of `save_document`:
the base name for counter 0, then `-1`, `-2`, ... appended. -/
def candidateName (date_str st : String) (k : Nat) : String :=
  if k = 0 then date_str ++ "_" ++ st ++ ".md"
  else date_str ++ "_" ++ st ++ "-" ++ toString k ++ ".md"

/-- The `while filepath.exists()` loop of `save_document`: the first
candidate name not already present in the directory. At most
`dir.length + 1` candidates can collide, so the search is bounded. -/
def freshName (dir : Dir) (date_str st : String) : String :=
  match (List.range (dir.length + 1)).find?
      (fun k => !(dir.any (fun p => p.1 == candidateName date_str st k))) with
  | some k => candidateName date_str st k
  | none => candidateName date_str st (dir.length + 1)

/-- The markdown content assembled by `save_document` before writing. -/
def buildContent (title created_at doc_id transcript : String)
    (include_full_note : Bool) (note : Option PMNode) : String :=
  let base := "# " ++ title ++ "\n\n"
    ++ "**Date:** " ++ created_at ++ "\n"
    ++ "**Document ID:** " ++ doc_id ++ "\n\n"
  let withTranscript :=
    if transcript ≠ "" then base ++ "## Transcript\n\n" ++ transcript ++ "\n\n" else base
  if include_full_note then
    match note with
    | some n =>
        let note_text := prosemirror_to_text (some n)
        if note_text ≠ "" then withTranscript ++ "## Meeting Notes\n\n" ++ note_text
        else withTranscript
    | none => withTranscript
  else withTranscript

/-- `save_document`: if an existing `*.md` file already carries the
document-id marker in its first 11 lines, return that file's name and leave
the directory unchanged; otherwise build a fresh file name from the date
and sanitized title and append the assembled content. `parseDate` stands
for `datetime.fromisoformat(...).strftime("%Y-%m-%d")`, which the code
wraps in a `try` with fallback `"no-date"`. -/
def save_document (parseDate : String → Option String) (dir : Dir)
    (doc : GDoc) (include_full_note : Bool) : String × Dir :=
  let doc_id := doc.id.getD "unknown"
  let title := doc.title.getD "Untitled"
  let created_at := doc.created_at.getD ""
  match alreadySaved dir doc_id with
  | some name => (name, dir)
  | none =>
      let date_str := (parseDate created_at).getD "no-date"
      let st := safe_title title
      let filename := freshName dir date_str st
      let transcript :=
        match doc.transcriptionDoc with
        | some d => prosemirror_to_text (some d)
        | none => ""
      let content := buildContent title created_at doc_id transcript include_full_note doc.content
      (filename, dir ++ [(filename, content)])

/-- The date filter of `sync`: documents are filtered by timestamp only
when `days` is truthy (not `None` and not `0`); `tsOf` stands for
`datetime.fromisoformat(created_at).timestamp()` and `now` for
`datetime.now().timestamp()`. -/
def syncFilter (tsOf : String → Int) (now : Int) (days : Option Int)
    (documents : List GDoc) : List GDoc :=
  match days with
  | none => documents
  | some d =>
      if d ≠ 0 then
        documents.filter (fun doc => tsOf (doc.created_at.getD "") > now - d * 86400)
      else documents

end Granola

namespace LangFlow

/-- A JSON-like value, used for flow inputs/outputs and API payloads. -/
inductive JVal where
  | str (s : String)
  | num (n : Int)
  | arr (xs : List JVal)
  | obj (fields : List (String × JVal))
deriving Repr

/-- Looks up a key in a JSON object's field list (`dict` access). -/
def JVal.get : JVal → String → Option JVal
  | .obj fields, k => (fields.find? (fun p => p.1 == k)).map (fun p => p.2)
  | _, _ => none

/-- `inputs.get(k1, inputs.get(k2, d))` over a string-valued input dict. -/
def getWithFallback (inputs : List (String × String)) (k1 k2 d : String) : String :=
  match inputs.find? (fun p => p.1 == k1) with
  | some p => p.2
  | none =>
      match inputs.find? (fun p => p.1 == k2) with
      | some p => p.2
      | none => d

/-- `_execute_chat_flow`: pure simulated response. (The doubled backslashes
reproduce the literal `\n` escape sequences in the Python source string.) -/
def executeChatFlow (inputs : List (String × String)) : JVal :=
  let message := getWithFallback inputs "message" "text" "Hello"
  .obj [("response", .str ("AI Response to: " ++ message
          ++ "\\n\\nThis is a simulated response from the chat flow. In a real implementation, this would connect to your preferred LLM.")),
        ("message_count", .num 1),
        ("flow_type", .str "chat")]

/-- `_execute_rag_flow`: `simSearch` stands for loading the Chroma vector
store and running `similarity_search(question, k=3)`; an `Except.error`
models any exception raised there (caught inside the flow). -/
def executeRagFlow (simSearch : String → Except String (List String))
    (inputs : List (String × String)) : JVal :=
  let question := getWithFallback inputs "question" "text" "What is this about?"
  match simSearch question with
  | .ok docs =>
      let answer :=
        if docs ≠ [] then
          let context := String.intercalate "\\n\\n" docs
          "Based on the documents, here's what I found about '" ++ question
            ++ "':\\n\\n" ++ ⟨context.data.take 500⟩ ++ "..."
        else
          "No relevant documents found. Please upload some documents first using the /flows/upload-documents endpoint."
      .obj [("answer", .str answer), ("question", .str question),
            ("sources_found", .num docs.length), ("flow_type", .str "rag")]
  | .error e =>
      .obj [("answer", .str ("Error accessing documents: " ++ e
              ++ ". Make sure to upload documents first.")),
            ("question", .str question),
            ("sources_found", .num 0), ("flow_type", .str "rag")]

/-- `_execute_summary_flow`: pure simulated summarization. -/
def executeSummaryFlow (inputs : List (String × String)) : JVal :=
  let document_text := getWithFallback inputs "document" "text" "No document provided"
  let summary := "Summary of document (first 100 chars): " ++ ⟨document_text.data.take 100⟩ ++ "..."
  .obj [("summary", .str summary),
        ("original_length", .num document_text.data.length),
        ("summary_length", .num summary.data.length),
        ("flow_type", .str "summary")]

/-- The error payload `execute_flow` returns for an unknown flow id when
the LangFlow engine call fails. -/
def unknownFlowPayload (flow_id : String) : JVal :=
  .obj [("error", .str ("Flow " ++ flow_id ++ " not found and LangFlow not available")),
        ("available_flows", .arr [.str "chat-basic", .str "rag-qa", .str "document-summary"])]

/-- `LangFlowService.execute_flow`: dispatches the three built-in flow ids
to their simulated executors; for any other id, tries the external LangFlow
engine (`engineCall` stands for the `httpx` POST including
`raise_for_status` and JSON decoding; `Except.error` models any exception
in it) and falls back to the error payload naming the built-in flows. -/
def execute_flow (engineCall : Except String JVal)
    (simSearch : String → Except String (List String))
    (flow_id : String) (inputs : List (String × String)) : JVal :=
  if flow_id = "chat-basic" then executeChatFlow inputs
  else if flow_id = "rag-qa" then executeRagFlow simSearch inputs
  else if flow_id = "document-summary" then executeSummaryFlow inputs
  else
    match engineCall with
    | .ok response => response
    | .error _ => unknownFlowPayload flow_id

/-- One entry of the in-memory `self.executions` dict. -/
structure ExecutionRecord where
  flow_id : String
  status : String
  outputs : Option JVal
  error : Option String
  started_at : String
  completed_at : Option String
deriving Repr

/-- The in-memory executions dict, keyed by execution id. -/
def ExecStore := String → Option ExecutionRecord

/-- Inserts or overwrites the record for a key (`dict` assignment). -/
def storeSet (store : ExecStore) (k : String) (r : ExecutionRecord) : ExecStore :=
  fun k' => if k' = k then some r else store k'

/-- Looks a record up by execution id (`dict.get`). -/
def storeGet (store : ExecStore) (k : String) : Option ExecutionRecord :=
  store k

/-- The first half of `execute_flow_streaming`: record the execution as
`running` with no outputs, no error and a start timestamp. -/
def streamingInit (store : ExecStore) (execution_id flow_id started_at : String) : ExecStore :=
  storeSet store execution_id
    { flow_id := flow_id, status := "running", outputs := none, error := none,
      started_at := started_at, completed_at := none }

/-- The second half of `execute_flow_streaming`: on a normal return of the
inner `execute_flow` (`Except.ok`) update the entry to `completed` with the
outputs; if it raised (`Except.error`) update it to `failed` with the error
message; either way record a completion timestamp. -/
def streamingFinish (store : ExecStore) (execution_id : String)
    (outcome : Except String JVal) (completed_at : String) : ExecStore :=
  match storeGet store execution_id with
  | none => store
  | some r =>
      match outcome with
      | .ok result =>
          storeSet store execution_id
            { r with status := "completed", outputs := some result,
                     completed_at := some completed_at }
      | .error e =>
          storeSet store execution_id
            { r with status := "failed", error := some e,
                     completed_at := some completed_at }

/-- `LangFlowService.execute_flow_streaming`: the init step followed by the
finish step, where `outcome` is the result of awaiting the inner
`execute_flow` (`Except.error` modelling a raised exception). -/
def execute_flow_streaming (store : ExecStore)
    (execution_id flow_id started_at completed_at : String)
    (outcome : Except String JVal) : ExecStore :=
  streamingFinish (streamingInit store execution_id flow_id started_at)
    execution_id outcome completed_at

/-- The result dict of `process_documents`. -/
structure ProcessResult where
  document_ids : List String
  chunks_processed : Nat
  files_processed : Nat
deriving Repr

/-- The accumulation loop of `process_documents` over the input paths:
`chunkOf` stands for selecting a loader by extension, loading the file and
splitting it into chunks (`none` models a per-file exception, which is
logged and skipped). Each successfully chunked file appends its chunks and
one generated id `doc_{n}` where `n` is the running id count. -/
def processLoop (chunkOf : String → Option (List String)) :
    List String → List String → List String → List String × List String
  | [], processed_docs, document_ids => (processed_docs, document_ids)
  | fp :: rest, processed_docs, document_ids =>
      match chunkOf fp with
      | some split_docs =>
          processLoop chunkOf rest (processed_docs ++ split_docs)
            (document_ids ++ ["doc_" ++ toString document_ids.length])
      | none => processLoop chunkOf rest processed_docs document_ids

/-- `LangFlowService.process_documents`: run the accumulation loop and
return the generated ids, the total chunk count, and the `files_processed`
count computed by the comprehension
`len([f for f in file_paths if any(doc for doc in processed_docs)])`. -/
def process_documents (chunkOf : String → Option (List String))
    (file_paths : List String) : ProcessResult :=
  let acc := processLoop chunkOf file_paths [] []
  let processed_docs := acc.1
  let document_ids := acc.2
  { document_ids := document_ids,
    chunks_processed := processed_docs.length,
    files_processed :=
      (file_paths.filter (fun _ => processed_docs.any (fun _ => true))).length }

/-- The `FlowResponse` Pydantic model of the API layer; `outputs` and
`error` default to `None`. -/
structure FlowResponse where
  execution_id : String
  flow_id : String
  status : String
  outputs : Option JVal
  error : Option String
deriving Repr

/-- The `POST /flows/execute` handler: for a streaming request it schedules
the background task and answers `streaming`; otherwise `serviceResult`
stands for awaiting `langflow_service.execute_flow` (`Except.error`
modelling a raised exception, caught by the handler's `except`), answered
as `completed` with the outputs, or `failed` with the error message. -/
def api_execute_flow (execution_id flow_id : String) (stream : Bool)
    (serviceResult : Except String JVal) : FlowResponse :=
  if stream then
    { execution_id := execution_id, flow_id := flow_id, status := "streaming",
      outputs := none, error := none }
  else
    match serviceResult with
    | .ok result =>
        { execution_id := execution_id, flow_id := flow_id, status := "completed",
          outputs := some result, error := none }
    | .error e =>
        { execution_id := execution_id, flow_id := flow_id, status := "failed",
          outputs := none, error := some e }

/-- The success body of the `POST /flows/upload-documents` handler. -/
structure UploadResponse where
  status : String
  processed_files : Nat
  document_ids : List String
  message : String
deriving Repr

/-- The `POST /flows/upload-documents` handler: `serviceResult` stands for
awaiting `langflow_service.process_documents(files)`; on a raised exception
the handler answers HTTP 500, otherwise it reports `processed_files` as
`len(files)` and the service's document ids. -/
def upload_documents (files : List String)
    (serviceResult : Except String ProcessResult) :
    Except (Nat × String) UploadResponse :=
  match serviceResult with
  | .ok result =>
      .ok { status := "success", processed_files := files.length,
            document_ids := result.document_ids,
            message := "Documents processed successfully" }
  | .error e => .error (500, "Failed to process documents: " ++ e)

end LangFlow

namespace Config

/-- The database-related fields of the Pydantic `Settings` model. -/
structure Settings where
  DATABASE_URL : Option String
  SQLITE_DATABASE : String
  POSTGRES_SERVER : Option String
  POSTGRES_USER : Option String
  POSTGRES_PASSWORD : Option String
  POSTGRES_DB : Option String
  POSTGRES_PORT : Int
deriving Repr

/-- The declared default of the `SQLITE_DATABASE` field: the SQLite path
templated on the project name placeholder. -/
def defaultSqliteDatabase : String := "sqlite+aiosqlite:///./PROJECT_NAME_PLACEHOLDER.db"

/-- The declared default of the `POSTGRES_PORT` field. -/
def defaultPostgresPort : Int := 5432

/-- Python truthiness of an `Optional[str]`: `None` and `""` are falsy. -/
def strTruthy : Option String → Bool
  | none => false
  | some s => s ≠ ""

/-- Python f-string rendering of an `Optional[str]` (`None` prints as
`"None"`). -/
def fmtOpt : Option String → String
  | none => "None"
  | some s => s

/-- The Postgres URL assembled by `assemble_db_connection`. -/
def postgresUrl (s : Settings) : String :=
  "postgresql+asyncpg://" ++ fmtOpt s.POSTGRES_USER ++ ":" ++ fmtOpt s.POSTGRES_PASSWORD
    ++ "@" ++ fmtOpt s.POSTGRES_SERVER ++ ":" ++ toString s.POSTGRES_PORT
    ++ "/" ++ fmtOpt s.POSTGRES_DB

/-- The `assemble_db_connection` model validator: a truthy `DATABASE_URL`
is kept; otherwise it is assembled from the Postgres fields when
`POSTGRES_SERVER` is truthy, else set to `SQLITE_DATABASE`. -/
def assemble_db_connection (s : Settings) : Settings :=
  if strTruthy s.DATABASE_URL then s
  else if strTruthy s.POSTGRES_SERVER then
    { s with DATABASE_URL := some (postgresUrl s) }
  else
    { s with DATABASE_URL := some s.SQLITE_DATABASE }

end Config

namespace Granola

/-- A concrete Granola document used to exercise `save_document`. -/
def sampleDoc : GDoc :=
  { id := some "abc123", title := some "Standup", created_at := some "2024-01-02T03:04:05Z",
    transcriptionDoc := none, content := none }

/-- A concrete stand-in for the `datetime` date formatting. -/
def sampleParse : String → Option String := fun _ => some "2024-01-02"

/-- The transcripts directory after saving `sampleDoc` into an empty one. -/
def sampleDir : Dir := (save_document sampleParse [] sampleDoc false).2

end Granola

namespace Config

/-- Concrete settings with no `DATABASE_URL` and a Postgres host. -/
def pgSettings : Settings :=
  { DATABASE_URL := none, SQLITE_DATABASE := defaultSqliteDatabase,
    POSTGRES_SERVER := some "db.internal", POSTGRES_USER := some "svc",
    POSTGRES_PASSWORD := some "pw", POSTGRES_DB := some "appdb",
    POSTGRES_PORT := defaultPostgresPort }

/-- Concrete settings with no `DATABASE_URL` and no Postgres host. -/
def sqliteSettings : Settings :=
  { DATABASE_URL := none, SQLITE_DATABASE := defaultSqliteDatabase,
    POSTGRES_SERVER := none, POSTGRES_USER := none,
    POSTGRES_PASSWORD := none, POSTGRES_DB := none,
    POSTGRES_PORT := defaultPostgresPort }

/-- Concrete settings whose `DATABASE_URL` is the empty string. -/
def emptyUrlSettings : Settings :=
  { DATABASE_URL := some "", SQLITE_DATABASE := defaultSqliteDatabase,
    POSTGRES_SERVER := none, POSTGRES_USER := none,
    POSTGRES_PASSWORD := none, POSTGRES_DB := none,
    POSTGRES_PORT := defaultPostgresPort }

/-- Concrete settings whose `POSTGRES_SERVER` is the empty string. -/
def emptyServerSettings : Settings :=
  { DATABASE_URL := none, SQLITE_DATABASE := defaultSqliteDatabase,
    POSTGRES_SERVER := some "", POSTGRES_USER := some "svc",
    POSTGRES_PASSWORD := some "pw", POSTGRES_DB := some "appdb",
    POSTGRES_PORT := defaultPostgresPort }

end Config

namespace Granola

/-- Any character surviving the `safe_title` pipeline is alphanumeric, a
hyphen, or an underscore. -/
lemma sanitize_char_class (a : Char) :
    (if (if keepChar a then a else '-') = ' ' then '-'
     else (if keepChar a then a else '-')).isAlphanum = true
    ∨ (if (if keepChar a then a else '-') = ' ' then '-'
       else (if keepChar a then a else '-')) = '-'
    ∨ (if (if keepChar a then a else '-') = ' ' then '-'
       else (if keepChar a then a else '-')) = '_' := by
  by_cases hk : keepChar a = true
  · simp only [hk, if_true]
    by_cases hs : a = ' '
    · simp [hs]
    · simp only [if_neg hs]
      have h4 : a.isAlphanum = true ∨ a = ' ' ∨ a = '-' ∨ a = '_' := by
        have := hk
        simp only [keepChar, Bool.or_eq_true, decide_eq_true_eq] at this
        tauto
      rcases h4 with h | h | h | h
      · exact Or.inl h
      · exact absurd h hs
      · exact Or.inr (Or.inl h)
      · exact Or.inr (Or.inr h)
  · simp only [hk, if_false]
    simp

end Granola

open Granola LangFlow Config

/-- C4: `prosemirror_to_text` accumulates literal text from `text` nodes,
appends a double newline after fully visiting a `paragraph` or `heading`
node, recurses uniformly into `content` child lists and list nodes, and
trims the concatenation; a heading "Title" followed by a paragraph "Body"
converts to exactly `"Title\n\nBody"`. -/
theorem C4_prosemirror_to_text :
    prosemirror_to_text (some (.obj (some "doc") none (some (.ofList
      [.obj (some "heading") none (some (.ofList [.obj (some "text") (some "Title") none])),
       .obj (some "paragraph") none (some (.ofList [.obj (some "text") (some "Body") none]))]))))
      = "Title\n\nBody" ∧
    (∀ (txt : Option String) (cs : PMForest),
      extract_text (.obj (some "paragraph") txt (some cs)) = extract_forest cs ++ ["\n\n"] ∧
      extract_text (.obj (some "heading") txt (some cs)) = extract_forest cs ++ ["\n\n"]) ∧
    (∀ (items : PMForest), extract_text (.arr items) = extract_forest items) ∧
    (∀ (s : String), extract_text (.obj (some "text") (some s) none) = [s]) := by
  refine ⟨by decide, fun txt cs => ⟨?_, ?_⟩, fun items => rfl, fun s => rfl⟩
  · simp [extract_text]
  · simp [extract_text]

/-- C2 fails as stated: `save_document` replaces disallowed characters with
hyphens instead of stripping them, so the title `"Q&A: Sprint Review!"`
sanitizes to `"Q-A--Sprint-Review-"`, not to the stripped
`"QA-Sprint-Review"`. -/
theorem C2_sanitize_counterexample :
    safe_title "Q&A: Sprint Review!" = "Q-A--Sprint-Review-" ∧
    safe_title_stripped "Q&A: Sprint Review!" = "QA-Sprint-Review" ∧
    safe_title "Q&A: Sprint Review!" ≠ safe_title_stripped "Q&A: Sprint Review!" := by
  decide

/-- C2 (amended): filename sanitization replaces characters outside
alphanumeric/space/hyphen/underscore with hyphens, replaces spaces with
hyphens, and truncates to at most 50 characters, so the result only holds
alphanumerics, hyphens and underscores; `"Q&A: Sprint Review!"` becomes
`"Q-A--Sprint-Review-"`. -/
theorem C2_sanitize_amended :
    ∀ title : String,
      (safe_title title).data.length ≤ 50 ∧
      (∀ c ∈ (safe_title title).data, c.isAlphanum = true ∨ c = '-' ∨ c = '_') ∧
      safe_title "Q&A: Sprint Review!" = "Q-A--Sprint-Review-" := by
  intro title
  refine ⟨?_, ?_, by decide⟩
  · show (((title.data.map _).map _).take 50).length ≤ 50
    rw [List.length_take]
    exact inf_le_left
  · intro c hc
    have hc2 : c ∈ (title.data.map (fun c => if keepChar c then c else '-')).map
        (fun c => if c = ' ' then '-' else c) := List.mem_of_mem_take hc
    rw [List.mem_map] at hc2
    obtain ⟨b, hb, rfl⟩ := hc2
    rw [List.mem_map] at hb
    obtain ⟨a, _, rfl⟩ := hb
    exact sanitize_char_class a

/-- C2 witness: the amended theorem applied at the concrete title. -/
theorem C2_sanitize_amended_witness :
    'Q' ∈ (safe_title "Q&A: Sprint Review!").data ∧
    ('Q'.isAlphanum = true ∨ 'Q' = '-' ∨ 'Q' = '_') :=
  ⟨by decide, (C2_sanitize_amended "Q&A: Sprint Review!").2.1 'Q' (by decide)⟩

/-- C8: passing `days = 0` to `sync` disables date filtering entirely,
exactly as `days = None` does, because the filter only runs when `days` is
truthy. -/
theorem C8_days_zero_no_filter :
    ∀ (tsOf : String → Int) (now : Int) (docs : List GDoc),
      syncFilter tsOf now (some 0) docs = docs ∧
      syncFilter tsOf now none docs = docs ∧
      syncFilter tsOf now (some 0) docs = syncFilter tsOf now none docs := by
  intro tsOf now docs
  refine ⟨by simp [syncFilter], rfl, by simp [syncFilter]⟩

/-- C3: if some existing `*.md` file in the transcripts directory carries
the document-id marker within its first 11 lines, `save_document` returns
that existing file's name and leaves the directory unchanged — no new
file, no rewrite. -/
theorem C3_save_idempotent :
    ∀ (parseDate : String → Option String) (dir : Dir) (doc : GDoc) (note : Bool),
      (∃ p ∈ dir, (strEndsWith p.1 ".md" && p.1 != ".gitkeep") = true ∧
        (first11 p.2).any (markerHit (doc.id.getD "unknown")) = true) →
      (save_document parseDate dir doc note).2 = dir ∧
      ∃ q ∈ dir, (save_document parseDate dir doc note).1 = q.1 ∧
        (first11 q.2).any (markerHit (doc.id.getD "unknown")) = true := by
  intro parseDate dir doc note h
  obtain ⟨p, hp, hmd, hmark⟩ := h
  have hmemf : p ∈ globMd dir := List.mem_filter.2 ⟨hp, hmd⟩
  have hsome : ((globMd dir).find?
      (fun q => (first11 q.2).any (markerHit (doc.id.getD "unknown")))).isSome = true :=
    List.find?_isSome.2 ⟨p, hmemf, hmark⟩
  obtain ⟨q, hq⟩ := Option.isSome_iff_exists.1 hsome
  have hqmem : q ∈ globMd dir := List.mem_of_find?_eq_some hq
  have hqhit := List.find?_some hq
  have halready : alreadySaved dir (doc.id.getD "unknown") = some q.1 := by
    simp [alreadySaved, hq]
  refine ⟨by simp [save_document, halready], q, (List.mem_filter.1 hqmem).1, ?_, hqhit⟩
  simp [save_document, halready]

/-- C3 witness: saving `sampleDoc` twice; the second save returns the file
created by the first and does not change the directory. -/
theorem C3_save_idempotent_witness :
    (∃ p ∈ sampleDir, (strEndsWith p.1 ".md" && p.1 != ".gitkeep") = true ∧
      (first11 p.2).any (markerHit (sampleDoc.id.getD "unknown")) = true) ∧
    ((save_document sampleParse sampleDir sampleDoc false).2 = sampleDir ∧
      ∃ q ∈ sampleDir, (save_document sampleParse sampleDir sampleDoc false).1 = q.1 ∧
        (first11 q.2).any (markerHit (sampleDoc.id.getD "unknown")) = true) :=
  ⟨by decide, C3_save_idempotent sampleParse sampleDir sampleDoc false (by decide)⟩

/-- C1 fails as stated: with one input file that splits into three chunks,
`process_documents` reports `files_processed = 1` while the total chunk
count is 3, so the files-processed count does not equal the chunk count
even though a document was successfully chunked. -/
theorem C1_files_processed_counterexample :
    (process_documents (fun _ => some ["c1", "c2", "c3"]) ["a.txt"]).chunks_processed = 3 ∧
    (process_documents (fun _ => some ["c1", "c2", "c3"]) ["a.txt"]).document_ids = ["doc_0"] ∧
    (process_documents (fun _ => some ["c1", "c2", "c3"]) ["a.txt"]).files_processed = 1 ∧
    (process_documents (fun _ => some ["c1", "c2", "c3"]) ["a.txt"]).files_processed ≠
      (process_documents (fun _ => some ["c1", "c2", "c3"]) ["a.txt"]).chunks_processed := by
  decide

/-- C1 (amended): whenever at least one document was successfully chunked,
the files-processed count reported by `process_documents` equals the total
number of *input file paths* (not the chunk count); with no chunks at all
it is 0. -/
theorem C1_files_processed_amended :
    ∀ (chunkOf : String → Option (List String)) (file_paths : List String),
      (0 < (process_documents chunkOf file_paths).chunks_processed →
        (process_documents chunkOf file_paths).files_processed = file_paths.length) ∧
      ((process_documents chunkOf file_paths).chunks_processed = 0 →
        (process_documents chunkOf file_paths).files_processed = 0) := by
  intro chunkOf file_paths
  simp only [process_documents]
  set docs := (processLoop chunkOf file_paths [] []).1 with hd
  cases docs with
  | nil => simp
  | cons a as =>
      constructor
      · intro _
        simp [List.filter_true]
      · intro h0
        simp at h0

/-- C1 witness: the amended theorem at a concrete input where chunking
succeeded. -/
theorem C1_files_processed_amended_witness :
    0 < (process_documents (fun _ => some ["c1"]) ["a.txt", "b.txt"]).chunks_processed ∧
    (process_documents (fun _ => some ["c1"]) ["a.txt", "b.txt"]).files_processed =
      ["a.txt", "b.txt"].length :=
  ⟨by decide,
    (C1_files_processed_amended (fun _ => some ["c1"]) ["a.txt", "b.txt"]).1 (by decide)⟩

/-- C9: for any upload-documents request that does not raise, the
`processed_files` field of the HTTP response equals the length of the input
file list, regardless of the ingestion service's actual result — in
particular for the result of `process_documents` under arbitrary per-file
failures. -/
theorem C9_processed_files_count :
    ∀ (files : List String) (result : ProcessResult)
      (chunkOf : String → Option (List String)),
      (∃ resp, upload_documents files (Except.ok result) = Except.ok resp ∧
        resp.processed_files = files.length ∧
        resp.document_ids = result.document_ids) ∧
      (∃ resp, upload_documents files (Except.ok (process_documents chunkOf files)) =
          Except.ok resp ∧ resp.processed_files = files.length) := by
  intro files result chunkOf
  exact ⟨⟨_, rfl, rfl, rfl⟩, ⟨_, rfl, rfl⟩⟩

/-- C6: for a flow id that is none of the three built-ins, when the
external engine call fails, `execute_flow` returns (does not raise) the
error payload whose `available_flows` lists exactly
`["chat-basic", "rag-qa", "document-summary"]`. -/
theorem C6_unknown_flow_fallback :
    ∀ (flow_id : String) (inputs : List (String × String))
      (simSearch : String → Except String (List String)) (err : String),
      flow_id ≠ "chat-basic" → flow_id ≠ "rag-qa" → flow_id ≠ "document-summary" →
      execute_flow (Except.error err) simSearch flow_id inputs = unknownFlowPayload flow_id ∧
      (unknownFlowPayload flow_id).get "available_flows" =
        some (.arr [.str "chat-basic", .str "rag-qa", .str "document-summary"]) := by
  intro flow_id inputs simSearch err h1 h2 h3
  refine ⟨?_, rfl⟩
  simp [execute_flow, h1, h2, h3]

/-- C6 witness: the theorem at a concrete unknown flow id with the engine
unreachable. -/
theorem C6_unknown_flow_fallback_witness :
    execute_flow (Except.error "connection refused") (fun _ => Except.error "no store")
        "mystery-flow" [] = unknownFlowPayload "mystery-flow" ∧
    (unknownFlowPayload "mystery-flow").get "available_flows" =
      some (.arr [.str "chat-basic", .str "rag-qa", .str "document-summary"]) :=
  C6_unknown_flow_fallback "mystery-flow" [] (fun _ => Except.error "no store")
    "connection refused" (by decide) (by decide) (by decide)

/-- C7: a streaming execution record starts as `running` with no outputs
and no error; the only reachable transitions are to `completed` with
outputs set and error absent (inner execution returned) or to `failed`
with outputs absent and error set (inner execution raised). -/
theorem C7_streaming_transitions :
    ∀ (store : ExecStore) (eid fid started completed : String)
      (outcome : Except String JVal),
      storeGet (streamingInit store eid fid started) eid =
        some { flow_id := fid, status := "running", outputs := none, error := none,
               started_at := started, completed_at := none } ∧
      ((∃ r, outcome = Except.ok r ∧
          storeGet (execute_flow_streaming store eid fid started completed outcome) eid =
            some { flow_id := fid, status := "completed", outputs := some r, error := none,
                   started_at := started, completed_at := some completed }) ∨
       (∃ e, outcome = Except.error e ∧
          storeGet (execute_flow_streaming store eid fid started completed outcome) eid =
            some { flow_id := fid, status := "failed", outputs := none, error := some e,
                   started_at := started, completed_at := some completed })) := by
  intro store eid fid started completed outcome
  constructor
  · simp [storeGet, streamingInit, storeSet]
  · cases outcome with
    | ok r =>
        exact Or.inl ⟨r, rfl, by
          simp [execute_flow_streaming, streamingFinish, streamingInit, storeGet, storeSet]⟩
    | error e =>
        exact Or.inr ⟨e, rfl, by
          simp [execute_flow_streaming, streamingFinish, streamingInit, storeGet, storeSet]⟩

/-- C10: the non-streaming execute-flow endpoint answers `completed` with
the service's return value as outputs and no error whenever the service
returns normally — including when that value is the unknown-flow error
payload — and answers `failed` exactly when the service call raises. -/
theorem C10_completed_on_return :
    ∀ (eid fid : String) (outcome : Except String JVal),
      (∀ r, outcome = Except.ok r →
        api_execute_flow eid fid false outcome =
          { execution_id := eid, flow_id := fid, status := "completed",
            outputs := some r, error := none }) ∧
      ((api_execute_flow eid fid false outcome).status = "failed" ↔
        ∃ e, outcome = Except.error e) ∧
      (∀ (flow_id err : String) (simSearch : String → Except String (List String))
          (inputs : List (String × String)),
        flow_id ≠ "chat-basic" → flow_id ≠ "rag-qa" → flow_id ≠ "document-summary" →
        api_execute_flow eid flow_id false
            (Except.ok (execute_flow (Except.error err) simSearch flow_id inputs)) =
          { execution_id := eid, flow_id := flow_id, status := "completed",
            outputs := some (unknownFlowPayload flow_id), error := none }) := by
  intro eid fid outcome
  refine ⟨?_, ?_, ?_⟩
  · rintro r rfl
    rfl
  · cases outcome with
    | ok r =>
        constructor
        · intro h
          simp [api_execute_flow] at h
        · rintro ⟨e, h⟩
          exact Except.noConfusion h
    | error e =>
        constructor
        · intro _
          exact ⟨e, rfl⟩
        · intro _
          rfl
  · intro flow_id err simSearch inputs h1 h2 h3
    simp [api_execute_flow, execute_flow, h1, h2, h3]

/-- C10 witness: a concrete non-streaming request for an unknown flow with
the engine down still answers `completed`, carrying the error payload as
outputs. -/
theorem C10_completed_on_return_witness :
    api_execute_flow "exec-1" "mystery-flow" false
        (Except.ok (execute_flow (Except.error "down") (fun _ => Except.error "no store")
          "mystery-flow" [])) =
      { execution_id := "exec-1", flow_id := "mystery-flow", status := "completed",
        outputs := some (unknownFlowPayload "mystery-flow"), error := none } :=
  (C10_completed_on_return "exec-1" "x" (Except.ok (.str ""))).2.2 "mystery-flow" "down"
    (fun _ => Except.error "no store") [] (by decide) (by decide) (by decide)

/-- C5 fails as stated: a supplied but empty `DATABASE_URL` is *not* left
unchanged — Python truthiness treats `""` like `None`, so the validator
overwrites it with the SQLite fallback; likewise an empty
`POSTGRES_SERVER` does not select the Postgres branch. -/
theorem C5_assemble_db_counterexample :
    (assemble_db_connection emptyUrlSettings).DATABASE_URL ≠ some "" ∧
    (assemble_db_connection emptyUrlSettings).DATABASE_URL = some defaultSqliteDatabase ∧
    (assemble_db_connection emptyServerSettings).DATABASE_URL = some defaultSqliteDatabase ∧
    (assemble_db_connection emptyServerSettings).DATABASE_URL ≠
      some (postgresUrl emptyServerSettings) := by
  decide

/-- C5 (amended): with "set" read as Python-truthy (neither `None` nor the
empty string): a truthy `DATABASE_URL` is left unchanged; otherwise with a
truthy `POSTGRES_SERVER` the connection string is the Postgres URL
assembled from user, password, host, port and database; otherwise it is
the templated local SQLite path. -/
theorem C5_assemble_db_amended :
    ∀ s : Settings,
      (strTruthy s.DATABASE_URL = true → assemble_db_connection s = s) ∧
      (strTruthy s.DATABASE_URL = false → strTruthy s.POSTGRES_SERVER = true →
        (assemble_db_connection s).DATABASE_URL = some (postgresUrl s)) ∧
      (strTruthy s.DATABASE_URL = false → strTruthy s.POSTGRES_SERVER = false →
        (assemble_db_connection s).DATABASE_URL = some s.SQLITE_DATABASE) := by
  intro s
  refine ⟨fun h => ?_, fun h1 h2 => ?_, fun h1 h2 => ?_⟩
  · simp [assemble_db_connection, h]
  · simp [assemble_db_connection, h1, h2]
  · simp [assemble_db_connection, h1, h2]

/-- C5 witness: the amended theorem at concrete settings for both the
Postgres and the SQLite branch. -/
theorem C5_assemble_db_amended_witness :
    (assemble_db_connection pgSettings).DATABASE_URL = some (postgresUrl pgSettings) ∧
    (assemble_db_connection sqliteSettings).DATABASE_URL = some sqliteSettings.SQLITE_DATABASE :=
  ⟨(C5_assemble_db_amended pgSettings).2.1 (by decide) (by decide),
    (C5_assemble_db_amended sqliteSettings).2.2 (by decide) (by decide)⟩
